import Mathlib

/-!
Shallow embedding of `src/api/client.py`, a small HTTP client for a polling
service with three operations: `fetch_polls`, `cast_vote`, `get_poll_results`.

The transport (Python `requests` / a `requests.Session`) is modelled as a
function from the request the client builds to either a transport-level
exception or an HTTP response.  Each Python function is split into the
request it builds (the code before the `http.get`/`http.post` call) and the
handler it applies to the outcome of that call; the function itself is their
composition, exactly as the Python code runs them in sequence.
-/

namespace PollyClient

/-- A parsed JSON value, the result of Python `resp.json()`. -/
inductive Json where
  | null : Json
  | bool (b : Bool) : Json
  | num (n : Int) : Json
  | str (s : String) : Json
  | arr (xs : List Json) : Json
  | obj (fields : List (String × Json)) : Json

/-- An HTTP request as assembled by the client and passed to the transport:
method, full URL, query parameters (insertion order of the Python dict),
optional JSON body, and the `headers` argument (`none` models Python `None`). -/
structure Request where
  method : String
  url : String
  params : List (String × Int)
  jsonBody : Option Json
  headers : Option (List (String × String))

/-- An HTTP response as returned by the transport.  `text` is the raw body
(`resp.text`), `json` its parsed JSON value (`resp.json()`), `reason` the
HTTP reason phrase and `url` the final URL; the latter two only feed the
message of the `requests.HTTPError` raised by `raise_for_status`. -/
structure Response where
  status_code : Nat
  text : String
  json : Json
  reason : String
  url : String

/-- A transport-level exception (`requests.Timeout`, `ConnectionError`, ...),
raised by the transport itself rather than built by this client. -/
structure TransportExc where
  kind : String
  message : String
deriving DecidableEq

/-- The exceptions a client call can surface: the three client error classes
`PollsFetchError`, `VotingError`, `PollResultsFetchError` (each carrying its
message string), or a transport exception propagated unchanged. -/
inductive PyError where
  | pollsFetch (msg : String) : PyError
  | voting (msg : String) : PyError
  | pollResultsFetch (msg : String) : PyError
  | transport (e : TransportExc) : PyError

/-- Python `base_url.rstrip('/')`: remove every trailing `'/'`. -/
def rstripSlash (s : String) : String :=
  String.mk ((s.data.reverse.dropWhile (fun c => c == '/')).reverse)

/-- Python `str.strip()` on the response body: remove leading and trailing
whitespace (space, tab, carriage return, newline; Python also strips a few
rarer whitespace code points, which no claim depends on). -/
def pyStrip (s : String) : String :=
  String.mk (((s.data.dropWhile Char.isWhitespace).reverse.dropWhile Char.isWhitespace).reverse)

/-- The message of the `requests.HTTPError` built by
`Response.raise_for_status`:
`"{code} Client Error: {reason} for url: {url}"` for 4xx and
`"{code} Server Error: {reason} for url: {url}"` for 5xx. -/
def http_error_message (resp : Response) : String :=
  if resp.status_code < 500 then
    toString resp.status_code ++ " Client Error: " ++ resp.reason ++ " for url: " ++ resp.url
  else
    toString resp.status_code ++ " Server Error: " ++ resp.reason ++ " for url: " ++ resp.url

/-- Python `resp.raise_for_status()`: raises an `HTTPError` (here: returns its
message) exactly when `400 <= status_code < 600`, else does nothing. -/
def raise_for_status (resp : Response) : Option String :=
  if 400 ≤ resp.status_code ∧ resp.status_code < 600 then
    some (http_error_message resp)
  else
    none

/-- The request built by `fetch_polls`:
`GET {base_url.rstrip('/')}/polls` with query params `skip` and `limit`. -/
def fetchPollsRequest (skip limit : Int) (base_url : String) : Request :=
  { method := "GET"
    url := rstripSlash base_url ++ "/polls"
    params := [("skip", skip), ("limit", limit)]
    jsonBody := none
    headers := none }

/-- The response handling of `fetch_polls`: on 200 return `resp.json()`
unvalidated; otherwise raise `PollsFetchError` with the body text (stripped,
falling back to the `HTTPError` text when empty) for 4xx/5xx, or the bare
`"Unexpected status code"` message when `raise_for_status` does not raise. -/
def fetchPollsHandle (result : Except TransportExc Response) : Except PyError Json :=
  match result with
  | .error e => .error (.transport e)
  | .ok resp =>
    if resp.status_code = 200 then
      .ok resp.json
    else
      match raise_for_status resp with
      | some excMsg =>
        let text := pyStrip resp.text
        .error (.pollsFetch ("GET /polls failed (" ++ toString resp.status_code ++ "): "
          ++ (if text = "" then excMsg else text)))
      | none =>
        .error (.pollsFetch ("Unexpected status code " ++ toString resp.status_code))

/-- `fetch_polls(skip, limit, base_url, session)`: build the request, run it
through the transport, handle the outcome. -/
def fetch_polls (skip limit : Int) (base_url : String)
    (transport : Request → Except TransportExc Response) : Except PyError Json :=
  fetchPollsHandle (transport (fetchPollsRequest skip limit base_url))

/-- The `headers` dict built by `cast_vote`: starts empty, and
`if bearer_token:` adds `Authorization: Bearer <token>` — a Python truthiness
test, so both `None` and the empty string add nothing. -/
def castVoteHeaders (bearer_token : Option String) : List (String × String) :=
  match bearer_token with
  | none => []
  | some t => if t = "" then [] else [("Authorization", "Bearer " ++ t)]

/-- The request built by `cast_vote`:
`POST {base_url.rstrip('/')}/polls/{poll_id}/vote` with JSON body
`{"option_id": option_id}` and `headers or None`. -/
def castVoteRequest (poll_id option_id : Int) (base_url : String)
    (bearer_token : Option String) : Request :=
  let hs := castVoteHeaders bearer_token
  { method := "POST"
    url := rstripSlash base_url ++ "/polls/" ++ toString poll_id ++ "/vote"
    params := []
    jsonBody := some (Json.obj [("option_id", Json.num option_id)])
    headers := if hs = [] then none else some hs }

/-- The response handling of `cast_vote`: on 200 return `resp.json()`
unvalidated; otherwise raise `VotingError` analogously to `fetch_polls`. -/
def castVoteHandle (poll_id : Int) (result : Except TransportExc Response) :
    Except PyError Json :=
  match result with
  | .error e => .error (.transport e)
  | .ok resp =>
    if resp.status_code = 200 then
      .ok resp.json
    else
      match raise_for_status resp with
      | some excMsg =>
        let text := pyStrip resp.text
        .error (.voting ("POST /polls/" ++ toString poll_id ++ "/vote failed ("
          ++ toString resp.status_code ++ "): " ++ (if text = "" then excMsg else text)))
      | none =>
        .error (.voting ("Unexpected status code " ++ toString resp.status_code))

/-- `cast_vote(poll_id, option_id, base_url, session, bearer_token)`. -/
def cast_vote (poll_id option_id : Int) (base_url : String)
    (bearer_token : Option String)
    (transport : Request → Except TransportExc Response) : Except PyError Json :=
  castVoteHandle poll_id (transport (castVoteRequest poll_id option_id base_url bearer_token))

/-- The request built by `get_poll_results`:
`GET {base_url.rstrip('/')}/polls/{poll_id}/results`. -/
def getPollResultsRequest (poll_id : Int) (base_url : String) : Request :=
  { method := "GET"
    url := rstripSlash base_url ++ "/polls/" ++ toString poll_id ++ "/results"
    params := []
    jsonBody := none
    headers := none }

/-- The response handling of `get_poll_results`: on 200 return `resp.json()`
unvalidated; otherwise raise `PollResultsFetchError` analogously. -/
def getPollResultsHandle (poll_id : Int) (result : Except TransportExc Response) :
    Except PyError Json :=
  match result with
  | .error e => .error (.transport e)
  | .ok resp =>
    if resp.status_code = 200 then
      .ok resp.json
    else
      match raise_for_status resp with
      | some excMsg =>
        let text := pyStrip resp.text
        .error (.pollResultsFetch ("GET /polls/" ++ toString poll_id ++ "/results failed ("
          ++ toString resp.status_code ++ "): " ++ (if text = "" then excMsg else text)))
      | none =>
        .error (.pollResultsFetch ("Unexpected status code " ++ toString resp.status_code))

/-- `get_poll_results(poll_id, base_url, session)`. -/
def get_poll_results (poll_id : Int) (base_url : String)
    (transport : Request → Except TransportExc Response) : Except PyError Json :=
  getPollResultsHandle poll_id (transport (getPollResultsRequest poll_id base_url))

/-! ### Shared helper lemmas about the error paths -/

theorem fetch_polls_error_in_range (skip limit : Int) (b : String) (resp : Response)
    (h4 : 400 ≤ resp.status_code) (h6 : resp.status_code < 600) :
    fetch_polls skip limit b (fun _ => .ok resp) =
      .error (.pollsFetch ("GET /polls failed (" ++ toString resp.status_code ++ "): "
        ++ (if pyStrip resp.text = "" then http_error_message resp else pyStrip resp.text))) := by
  have hne : resp.status_code ≠ 200 := by omega
  simp only [fetch_polls, fetchPollsHandle, raise_for_status, if_neg hne, if_pos (And.intro h4 h6)]

theorem fetch_polls_error_out_of_range (skip limit : Int) (b : String) (resp : Response)
    (hne : resp.status_code ≠ 200)
    (hnr : ¬(400 ≤ resp.status_code ∧ resp.status_code < 600)) :
    fetch_polls skip limit b (fun _ => .ok resp) =
      .error (.pollsFetch ("Unexpected status code " ++ toString resp.status_code)) := by
  simp only [fetch_polls, fetchPollsHandle, raise_for_status, if_neg hne, if_neg hnr]

theorem cast_vote_error_in_range (pid oid : Int) (b : String) (tok : Option String)
    (resp : Response) (h4 : 400 ≤ resp.status_code) (h6 : resp.status_code < 600) :
    cast_vote pid oid b tok (fun _ => .ok resp) =
      .error (.voting ("POST /polls/" ++ toString pid ++ "/vote failed ("
        ++ toString resp.status_code ++ "): "
        ++ (if pyStrip resp.text = "" then http_error_message resp else pyStrip resp.text))) := by
  have hne : resp.status_code ≠ 200 := by omega
  simp only [cast_vote, castVoteHandle, raise_for_status, if_neg hne, if_pos (And.intro h4 h6)]

theorem cast_vote_error_out_of_range (pid oid : Int) (b : String) (tok : Option String)
    (resp : Response) (hne : resp.status_code ≠ 200)
    (hnr : ¬(400 ≤ resp.status_code ∧ resp.status_code < 600)) :
    cast_vote pid oid b tok (fun _ => .ok resp) =
      .error (.voting ("Unexpected status code " ++ toString resp.status_code)) := by
  simp only [cast_vote, castVoteHandle, raise_for_status, if_neg hne, if_neg hnr]

theorem get_poll_results_error_in_range (pid : Int) (b : String) (resp : Response)
    (h4 : 400 ≤ resp.status_code) (h6 : resp.status_code < 600) :
    get_poll_results pid b (fun _ => .ok resp) =
      .error (.pollResultsFetch ("GET /polls/" ++ toString pid ++ "/results failed ("
        ++ toString resp.status_code ++ "): "
        ++ (if pyStrip resp.text = "" then http_error_message resp else pyStrip resp.text))) := by
  have hne : resp.status_code ≠ 200 := by omega
  simp only [get_poll_results, getPollResultsHandle, raise_for_status, if_neg hne,
    if_pos (And.intro h4 h6)]

theorem get_poll_results_error_out_of_range (pid : Int) (b : String) (resp : Response)
    (hne : resp.status_code ≠ 200)
    (hnr : ¬(400 ≤ resp.status_code ∧ resp.status_code < 600)) :
    get_poll_results pid b (fun _ => .ok resp) =
      .error (.pollResultsFetch ("Unexpected status code " ++ toString resp.status_code)) := by
  simp only [get_poll_results, getPollResultsHandle, raise_for_status, if_neg hne, if_neg hnr]

/-! ### Claim theorems -/

/-- C1: for every skip and limit, `fetch_polls` issues a GET request to
`{base_url}/polls` with query parameters `skip` and `limit`, and whenever the
transport answers that request with status 200 and a JSON array body, it
returns that parsed array unchanged, so every field value matches the
response. -/
theorem fetch_polls_matches_spec (skip limit : Int) (base_url : String)
    (hb : rstripSlash base_url = base_url) :
    (fetchPollsRequest skip limit base_url).method = "GET" ∧
    (fetchPollsRequest skip limit base_url).url = base_url ++ "/polls" ∧
    (fetchPollsRequest skip limit base_url).params = [("skip", skip), ("limit", limit)] ∧
    (∀ (transport : Request → Except TransportExc Response) (resp : Response) (xs : List Json),
      transport (fetchPollsRequest skip limit base_url) = .ok resp →
      resp.status_code = 200 →
      resp.json = Json.arr xs →
      fetch_polls skip limit base_url transport = .ok (Json.arr xs)) := by
  refine ⟨rfl, ?_, rfl, ?_⟩
  · simp only [fetchPollsRequest, hb]
  · intro transport resp xs ht h200 hj
    simp only [fetch_polls, ht, fetchPollsHandle, if_pos h200, hj]

/-- C1 witness: `fetch_polls(skip=0, limit=2)` against a stub returning the
one-element poll array of the spec example returns that one poll with id 1. -/
theorem fetch_polls_matches_spec_witness :
    rstripSlash "http://localhost:8000" = "http://localhost:8000" ∧
    fetch_polls 0 2 "http://localhost:8000"
      (fun _ => Except.ok
        { status_code := 200
          text := "[poll body]"
          json := Json.arr [Json.obj [("id", Json.num 1), ("question", Json.str "Q"),
            ("created_at", Json.str "2024-01-01T00:00:00Z"), ("owner_id", Json.num 1),
            ("options", Json.arr [])]]
          reason := "OK"
          url := "http://localhost:8000/polls" })
      = Except.ok (Json.arr [Json.obj [("id", Json.num 1), ("question", Json.str "Q"),
          ("created_at", Json.str "2024-01-01T00:00:00Z"), ("owner_id", Json.num 1),
          ("options", Json.arr [])]]) :=
  ⟨rfl, (fetch_polls_matches_spec 0 2 "http://localhost:8000" rfl).2.2.2 _ _ _ rfl rfl rfl⟩

/-- C4: every 200 response to `cast_vote` whose body is a JSON object with
fields id, user_id, option_id and created_at round-trips into the returned
vote value with exactly those field values. -/
theorem cast_vote_200_round_trip (pid oid i u o : Int) (c : String) (b : String)
    (tok : Option String) (resp : Response) (h200 : resp.status_code = 200)
    (hj : resp.json = Json.obj [("id", Json.num i), ("user_id", Json.num u),
      ("option_id", Json.num o), ("created_at", Json.str c)]) :
    cast_vote pid oid b tok (fun _ => .ok resp) =
      .ok (Json.obj [("id", Json.num i), ("user_id", Json.num u),
        ("option_id", Json.num o), ("created_at", Json.str c)]) := by
  simp only [cast_vote, castVoteHandle, if_pos h200, hj]

/-- C4 witness: a concrete 200 vote response with id 7, user_id 3, option_id 2,
created_at "2024-01-02T00:00:00Z" is returned with identical fields. -/
theorem cast_vote_200_round_trip_witness :
    (200 : Nat) = 200 ∧
    cast_vote 1 2 "http://localhost:8000" (some "tok")
      (fun _ => Except.ok
        { status_code := 200
          text := "[vote body]"
          json := Json.obj [("id", Json.num 7), ("user_id", Json.num 3),
            ("option_id", Json.num 2), ("created_at", Json.str "2024-01-02T00:00:00Z")]
          reason := "OK"
          url := "http://localhost:8000/polls/1/vote" })
      = Except.ok (Json.obj [("id", Json.num 7), ("user_id", Json.num 3),
          ("option_id", Json.num 2), ("created_at", Json.str "2024-01-02T00:00:00Z")]) :=
  ⟨rfl, cast_vote_200_round_trip 1 2 7 3 2 "2024-01-02T00:00:00Z" "http://localhost:8000"
    (some "tok") _ rfl rfl⟩

/-- C5: every 200 response to `get_poll_results` whose body is a PollResults
JSON object is returned with identical poll_id and question and with the
results sequence preserved element-for-element in order. -/
theorem get_poll_results_200_round_trip (pid p : Int) (q : String) (items : List Json)
    (b : String) (resp : Response) (h200 : resp.status_code = 200)
    (hj : resp.json = Json.obj [("poll_id", Json.num p), ("question", Json.str q),
      ("results", Json.arr items)]) :
    get_poll_results pid b (fun _ => .ok resp) =
      .ok (Json.obj [("poll_id", Json.num p), ("question", Json.str q),
        ("results", Json.arr items)]) := by
  simp only [get_poll_results, getPollResultsHandle, if_pos h200, hj]

/-- C5 witness: a concrete 200 results response with two result items is
returned with both items in their original order. -/
theorem get_poll_results_200_round_trip_witness :
    (200 : Nat) = 200 ∧
    get_poll_results 1 "http://localhost:8000"
      (fun _ => Except.ok
        { status_code := 200
          text := "[results body]"
          json := Json.obj [("poll_id", Json.num 1), ("question", Json.str "Q"),
            ("results", Json.arr
              [Json.obj [("option_id", Json.num 1), ("text", Json.str "A"),
                ("vote_count", Json.num 2)],
               Json.obj [("option_id", Json.num 2), ("text", Json.str "B"),
                ("vote_count", Json.num 0)]])]
          reason := "OK"
          url := "http://localhost:8000/polls/1/results" })
      = Except.ok (Json.obj [("poll_id", Json.num 1), ("question", Json.str "Q"),
          ("results", Json.arr
            [Json.obj [("option_id", Json.num 1), ("text", Json.str "A"),
              ("vote_count", Json.num 2)],
             Json.obj [("option_id", Json.num 2), ("text", Json.str "B"),
              ("vote_count", Json.num 0)]])]) :=
  ⟨rfl, get_poll_results_200_round_trip 1 1 "Q"
    [Json.obj [("option_id", Json.num 1), ("text", Json.str "A"), ("vote_count", Json.num 2)],
     Json.obj [("option_id", Json.num 2), ("text", Json.str "B"), ("vote_count", Json.num 0)]]
    "http://localhost:8000" _ rfl rfl⟩

/-- C7: when the transport itself fails (timeout, connection error), each of
the three operations surfaces that transport exception unchanged — it is not
wrapped into `PollsFetchError`, `VotingError` or `PollResultsFetchError` and
its payload is untouched. -/
theorem transport_errors_propagate (e : TransportExc) (skip limit pid oid rid : Int)
    (b : String) (tok : Option String) :
    fetch_polls skip limit b (fun _ => .error e) = .error (.transport e) ∧
    cast_vote pid oid b tok (fun _ => .error e) = .error (.transport e) ∧
    get_poll_results rid b (fun _ => .error e) = .error (.transport e) :=
  ⟨rfl, rfl, rfl⟩

/-- C8: on any 200 response each of the three operations returns the parsed
JSON body verbatim, whatever its shape — no validation against the declared
Poll/Vote/PollResults schema happens and no error is raised. -/
theorem status_200_returns_json_verbatim (skip limit pid oid rid : Int) (b : String)
    (tok : Option String) (resp : Response) (h200 : resp.status_code = 200) :
    fetch_polls skip limit b (fun _ => .ok resp) = .ok resp.json ∧
    cast_vote pid oid b tok (fun _ => .ok resp) = .ok resp.json ∧
    get_poll_results rid b (fun _ => .ok resp) = .ok resp.json := by
  refine ⟨?_, ?_, ?_⟩
  · simp only [fetch_polls, fetchPollsHandle, if_pos h200]
  · simp only [cast_vote, castVoteHandle, if_pos h200]
  · simp only [get_poll_results, getPollResultsHandle, if_pos h200]

/-- C8 witness: a 200 response whose body is an object (not the array
`fetch_polls` is documented to return, and missing every declared field) is
still returned as-is by all three operations. -/
theorem status_200_returns_json_verbatim_witness :
    (200 : Nat) = 200 ∧
    (fetch_polls 0 10 "http://localhost:8000"
        (fun _ => Except.ok
          { status_code := 200, text := "x", json := Json.obj [("weird", Json.null)],
            reason := "OK", url := "u" })
        = Except.ok (Json.obj [("weird", Json.null)]) ∧
     cast_vote 1 2 "http://localhost:8000" none
        (fun _ => Except.ok
          { status_code := 200, text := "x", json := Json.obj [("weird", Json.null)],
            reason := "OK", url := "u" })
        = Except.ok (Json.obj [("weird", Json.null)]) ∧
     get_poll_results 1 "http://localhost:8000"
        (fun _ => Except.ok
          { status_code := 200, text := "x", json := Json.obj [("weird", Json.null)],
            reason := "OK", url := "u" })
        = Except.ok (Json.obj [("weird", Json.null)])) :=
  ⟨rfl, status_200_returns_json_verbatim 0 10 1 2 1 "http://localhost:8000" none
    { status_code := 200, text := "x", json := Json.obj [("weird", Json.null)],
      reason := "OK", url := "u" } rfl⟩

/-- C2 counterexample: the claim says every non-200 response yields an error
carrying the response body or exception text, but at status 204 the code's
`raise_for_status` does not raise, so the error message is the fixed
`"Unexpected status code 204"` whatever the body says: two responses with
completely different bodies produce the identical error. -/
theorem non_200_error_content_counterexample :
    fetch_polls 0 10 "http://localhost:8000"
      (fun _ => Except.ok
        { status_code := 204, text := "service said oops", json := Json.null,
          reason := "No Content", url := "http://localhost:8000/polls" })
      = Except.error (.pollsFetch "Unexpected status code 204") ∧
    fetch_polls 0 10 "http://localhost:8000"
      (fun _ => Except.ok
        { status_code := 204, text := "an entirely different body", json := Json.null,
          reason := "No Content", url := "http://localhost:8000/polls" })
      = Except.error (.pollsFetch "Unexpected status code 204") :=
  ⟨rfl, rfl⟩

/-- C2 amended: every non-200 response makes each operation raise its own
dedicated error kind (`PollsFetchError` for fetch, `VotingError` for vote,
`PollResultsFetchError` for results) and never one of the other two; the
error carries the status code, and it carries the stripped response body or
the exception text only when the status is in 400–599 — for other non-200
statuses the message is the bare `"Unexpected status code N"`. -/
theorem non_200_raises_dedicated_error_kinds (skip limit pid oid rid : Int) (b : String)
    (tok : Option String) (resp : Response) (hne : resp.status_code ≠ 200) :
    (400 ≤ resp.status_code ∧ resp.status_code < 600 →
      fetch_polls skip limit b (fun _ => .ok resp) =
        .error (.pollsFetch ("GET /polls failed (" ++ toString resp.status_code ++ "): "
          ++ (if pyStrip resp.text = "" then http_error_message resp else pyStrip resp.text))) ∧
      cast_vote pid oid b tok (fun _ => .ok resp) =
        .error (.voting ("POST /polls/" ++ toString pid ++ "/vote failed ("
          ++ toString resp.status_code ++ "): "
          ++ (if pyStrip resp.text = "" then http_error_message resp else pyStrip resp.text))) ∧
      get_poll_results rid b (fun _ => .ok resp) =
        .error (.pollResultsFetch ("GET /polls/" ++ toString rid ++ "/results failed ("
          ++ toString resp.status_code ++ "): "
          ++ (if pyStrip resp.text = "" then http_error_message resp else pyStrip resp.text)))) ∧
    (¬(400 ≤ resp.status_code ∧ resp.status_code < 600) →
      fetch_polls skip limit b (fun _ => .ok resp) =
        .error (.pollsFetch ("Unexpected status code " ++ toString resp.status_code)) ∧
      cast_vote pid oid b tok (fun _ => .ok resp) =
        .error (.voting ("Unexpected status code " ++ toString resp.status_code)) ∧
      get_poll_results rid b (fun _ => .ok resp) =
        .error (.pollResultsFetch ("Unexpected status code " ++ toString resp.status_code))) := by
  constructor
  · intro h
    exact ⟨fetch_polls_error_in_range skip limit b resp h.1 h.2,
      cast_vote_error_in_range pid oid b tok resp h.1 h.2,
      get_poll_results_error_in_range rid b resp h.1 h.2⟩
  · intro h
    exact ⟨fetch_polls_error_out_of_range skip limit b resp hne h,
      cast_vote_error_out_of_range pid oid b tok resp hne h,
      get_poll_results_error_out_of_range rid b resp hne h⟩

/-- C2 amended witness: a 404 response with body "Not found" makes the three
operations raise their three dedicated error kinds, each carrying 404 and the
body text. -/
theorem non_200_raises_dedicated_error_kinds_witness :
    (404 : Nat) ≠ 200 ∧ (400 ≤ (404 : Nat) ∧ (404 : Nat) < 600) ∧
    (fetch_polls 0 10 "http://localhost:8000"
        (fun _ => Except.ok
          { status_code := 404, text := "Not found", json := Json.null,
            reason := "Not Found", url := "http://localhost:8000/polls" })
        = Except.error (.pollsFetch "GET /polls failed (404): Not found") ∧
     cast_vote 1 2 "http://localhost:8000" none
        (fun _ => Except.ok
          { status_code := 404, text := "Not found", json := Json.null,
            reason := "Not Found", url := "http://localhost:8000/polls" })
        = Except.error (.voting "POST /polls/1/vote failed (404): Not found") ∧
     get_poll_results 3 "http://localhost:8000"
        (fun _ => Except.ok
          { status_code := 404, text := "Not found", json := Json.null,
            reason := "Not Found", url := "http://localhost:8000/polls" })
        = Except.error (.pollResultsFetch "GET /polls/3/results failed (404): Not found")) :=
  ⟨by decide, ⟨by decide, by decide⟩,
    (non_200_raises_dedicated_error_kinds 0 10 1 2 3 "http://localhost:8000" none
      { status_code := 404, text := "Not found", json := Json.null,
        reason := "Not Found", url := "http://localhost:8000/polls" }
      (by decide)).1 ⟨by decide, by decide⟩⟩

/-- C3 counterexample: supplying the empty-string bearer token is supplying a
token, yet the request built by `cast_vote` carries no Authorization header at
all — in particular not the claimed `"Bearer <token>"` value. -/
theorem cast_vote_empty_token_counterexample :
    (castVoteRequest 1 2 "http://localhost:8000" (some "")).headers = none ∧
    (castVoteRequest 1 2 "http://localhost:8000" (some "")).headers ≠
      some [("Authorization", "Bearer ")] :=
  ⟨rfl, by decide⟩

/-- C3 amended: `cast_vote` sends exactly one POST request to
`{base_url}/polls/{poll_id}/vote` with JSON body containing option_id; the
request carries `Authorization: Bearer <token>` when a NON-EMPTY token is
supplied, and carries no Authorization header when the token is absent or the
empty string (a Python truthiness test). -/
theorem cast_vote_builds_post_request (pid oid : Int) (b : String) (tok : Option String)
    (hb : rstripSlash b = b) :
    (castVoteRequest pid oid b tok).method = "POST" ∧
    (castVoteRequest pid oid b tok).url = b ++ "/polls/" ++ toString pid ++ "/vote" ∧
    (castVoteRequest pid oid b tok).jsonBody =
      some (Json.obj [("option_id", Json.num oid)]) ∧
    (∀ t, tok = some t → t ≠ "" →
      (castVoteRequest pid oid b tok).headers = some [("Authorization", "Bearer " ++ t)]) ∧
    (tok = none ∨ tok = some "" → (castVoteRequest pid oid b tok).headers = none) ∧
    (∀ transport, cast_vote pid oid b tok transport =
      castVoteHandle pid (transport (castVoteRequest pid oid b tok))) := by
  refine ⟨rfl, ?_, rfl, ?_, ?_, fun _ => rfl⟩
  · simp only [castVoteRequest, hb]
  · intro t ht hne
    subst ht
    simp [castVoteRequest, castVoteHeaders, hne]
  · rintro (h | h) <;> subst h <;> rfl

/-- C3 amended witness: with token "tok123" the built request carries
`Authorization: Bearer tok123`. -/
theorem cast_vote_builds_post_request_witness :
    rstripSlash "http://localhost:8000" = "http://localhost:8000" ∧
    (castVoteRequest 1 2 "http://localhost:8000" (some "tok123")).headers =
      some [("Authorization", "Bearer tok123")] :=
  ⟨rfl, (cast_vote_builds_post_request 1 2 "http://localhost:8000" (some "tok123")
    rfl).2.2.2.1 "tok123" rfl (by decide)⟩

/-- C6 counterexample: the claim says the error text comes from the body
whenever the body is non-empty, but (a) a 400 response whose body is three
spaces — non-empty — still gets the exception's text, because the code strips
the body first, and (b) a 301 response's error ignores its non-empty body
entirely. -/
theorem error_text_source_counterexample :
    (fetch_polls 0 10 "http://localhost:8000"
      (fun _ => Except.ok
        { status_code := 400, text := "   ", json := Json.null,
          reason := "Bad Request", url := "http://localhost:8000/polls" })
      = Except.error (.pollsFetch
          "GET /polls failed (400): 400 Client Error: Bad Request for url: http://localhost:8000/polls")
      ∧ "   " ≠ "") ∧
    (get_poll_results 5 "http://localhost:8000"
      (fun _ => Except.ok
        { status_code := 301, text := "moved body", json := Json.null,
          reason := "Moved Permanently", url := "http://localhost:8000/polls/5/results" })
      = Except.error (.pollResultsFetch "Unexpected status code 301")
      ∧ "moved body" ≠ "") :=
  ⟨⟨rfl, by decide⟩, ⟨rfl, by decide⟩⟩

/-- C6 amended: for responses with status 400–599, the error text is the
whitespace-stripped response body when that is non-empty, and otherwise the
underlying HTTPError's message; for non-200 statuses outside 400–599 the
message is the fixed `"Unexpected status code N"`, ignoring the body. -/
theorem error_text_source (skip limit pid oid rid : Int) (b : String)
    (tok : Option String) (resp : Response) (hne : resp.status_code ≠ 200) :
    (400 ≤ resp.status_code → resp.status_code < 600 → pyStrip resp.text ≠ "" →
      fetch_polls skip limit b (fun _ => .ok resp) =
        .error (.pollsFetch ("GET /polls failed (" ++ toString resp.status_code ++ "): "
          ++ pyStrip resp.text)) ∧
      cast_vote pid oid b tok (fun _ => .ok resp) =
        .error (.voting ("POST /polls/" ++ toString pid ++ "/vote failed ("
          ++ toString resp.status_code ++ "): " ++ pyStrip resp.text)) ∧
      get_poll_results rid b (fun _ => .ok resp) =
        .error (.pollResultsFetch ("GET /polls/" ++ toString rid ++ "/results failed ("
          ++ toString resp.status_code ++ "): " ++ pyStrip resp.text))) ∧
    (400 ≤ resp.status_code → resp.status_code < 600 → pyStrip resp.text = "" →
      fetch_polls skip limit b (fun _ => .ok resp) =
        .error (.pollsFetch ("GET /polls failed (" ++ toString resp.status_code ++ "): "
          ++ http_error_message resp)) ∧
      cast_vote pid oid b tok (fun _ => .ok resp) =
        .error (.voting ("POST /polls/" ++ toString pid ++ "/vote failed ("
          ++ toString resp.status_code ++ "): " ++ http_error_message resp)) ∧
      get_poll_results rid b (fun _ => .ok resp) =
        .error (.pollResultsFetch ("GET /polls/" ++ toString rid ++ "/results failed ("
          ++ toString resp.status_code ++ "): " ++ http_error_message resp))) ∧
    (¬(400 ≤ resp.status_code ∧ resp.status_code < 600) →
      fetch_polls skip limit b (fun _ => .ok resp) =
        .error (.pollsFetch ("Unexpected status code " ++ toString resp.status_code)) ∧
      cast_vote pid oid b tok (fun _ => .ok resp) =
        .error (.voting ("Unexpected status code " ++ toString resp.status_code)) ∧
      get_poll_results rid b (fun _ => .ok resp) =
        .error (.pollResultsFetch ("Unexpected status code " ++ toString resp.status_code))) := by
  refine ⟨?_, ?_, ?_⟩
  · intro h4 h6 ht
    refine ⟨?_, ?_, ?_⟩
    · rw [fetch_polls_error_in_range skip limit b resp h4 h6, if_neg ht]
    · rw [cast_vote_error_in_range pid oid b tok resp h4 h6, if_neg ht]
    · rw [get_poll_results_error_in_range rid b resp h4 h6, if_neg ht]
  · intro h4 h6 ht
    refine ⟨?_, ?_, ?_⟩
    · rw [fetch_polls_error_in_range skip limit b resp h4 h6, if_pos ht]
    · rw [cast_vote_error_in_range pid oid b tok resp h4 h6, if_pos ht]
    · rw [get_poll_results_error_in_range rid b resp h4 h6, if_pos ht]
  · intro h
    exact ⟨fetch_polls_error_out_of_range skip limit b resp hne h,
      cast_vote_error_out_of_range pid oid b tok resp hne h,
      get_poll_results_error_out_of_range rid b resp hne h⟩

/-- C6 amended witness: a 500 response with empty body makes all three error
messages fall back to the HTTPError's text. -/
theorem error_text_source_witness :
    (500 : Nat) ≠ 200 ∧ 400 ≤ (500 : Nat) ∧ (500 : Nat) < 600 ∧
    pyStrip "" = "" ∧
    (fetch_polls 0 10 "http://localhost:8000"
        (fun _ => Except.ok
          { status_code := 500, text := "", json := Json.null,
            reason := "Internal Server Error", url := "http://localhost:8000/polls" })
        = Except.error (.pollsFetch
            "GET /polls failed (500): 500 Server Error: Internal Server Error for url: http://localhost:8000/polls") ∧
     cast_vote 1 2 "http://localhost:8000" none
        (fun _ => Except.ok
          { status_code := 500, text := "", json := Json.null,
            reason := "Internal Server Error", url := "http://localhost:8000/polls" })
        = Except.error (.voting
            "POST /polls/1/vote failed (500): 500 Server Error: Internal Server Error for url: http://localhost:8000/polls") ∧
     get_poll_results 3 "http://localhost:8000"
        (fun _ => Except.ok
          { status_code := 500, text := "", json := Json.null,
            reason := "Internal Server Error", url := "http://localhost:8000/polls" })
        = Except.error (.pollResultsFetch
            "GET /polls/3/results failed (500): 500 Server Error: Internal Server Error for url: http://localhost:8000/polls")) :=
  ⟨by decide, by decide, by decide, rfl,
    (error_text_source 0 10 1 2 3 "http://localhost:8000" none
      { status_code := 500, text := "", json := Json.null,
        reason := "Internal Server Error", url := "http://localhost:8000/polls" }
      (by decide)).2.1 (by decide) (by decide) rfl⟩

theorem dropWhile_replicate_slash (k : Nat) (l : List Char) :
    List.dropWhile (fun c => c == '/') (List.replicate k '/' ++ l) =
      List.dropWhile (fun c => c == '/') l := by
  induction k with
  | zero => rfl
  | succ n ih => simp [List.replicate_succ, List.dropWhile_cons, ih]

theorem rstripSlash_append_slashes (b : String) (k : Nat) :
    rstripSlash (b ++ String.mk (List.replicate k '/')) = rstripSlash b := by
  unfold rstripSlash
  have hdata : (b ++ String.mk (List.replicate k '/')).data = b.data ++ List.replicate k '/' := by
    simp [String.data_append]
  rw [hdata, List.reverse_append, List.reverse_replicate, dropWhile_replicate_slash]

/-- C9: appending any number of trailing '/' characters to the base URL
leaves the built request of each operation — and hence the operation's
observable behaviour against any transport — unchanged, because the code
strips trailing slashes before appending the endpoint path. -/
theorem trailing_slashes_ignored (skip limit pid oid rid : Int) (k : Nat) (b : String)
    (tok : Option String) (transport : Request → Except TransportExc Response) :
    fetchPollsRequest skip limit (b ++ String.mk (List.replicate k '/')) =
      fetchPollsRequest skip limit b ∧
    castVoteRequest pid oid (b ++ String.mk (List.replicate k '/')) tok =
      castVoteRequest pid oid b tok ∧
    getPollResultsRequest rid (b ++ String.mk (List.replicate k '/')) =
      getPollResultsRequest rid b ∧
    fetch_polls skip limit (b ++ String.mk (List.replicate k '/')) transport =
      fetch_polls skip limit b transport ∧
    cast_vote pid oid (b ++ String.mk (List.replicate k '/')) tok transport =
      cast_vote pid oid b tok transport ∧
    get_poll_results rid (b ++ String.mk (List.replicate k '/')) transport =
      get_poll_results rid b transport := by
  have h := rstripSlash_append_slashes b k
  have h1 : fetchPollsRequest skip limit (b ++ String.mk (List.replicate k '/')) =
      fetchPollsRequest skip limit b := by
    simp only [fetchPollsRequest, h]
  have h2 : castVoteRequest pid oid (b ++ String.mk (List.replicate k '/')) tok =
      castVoteRequest pid oid b tok := by
    simp only [castVoteRequest, h]
  have h3 : getPollResultsRequest rid (b ++ String.mk (List.replicate k '/')) =
      getPollResultsRequest rid b := by
    simp only [getPollResultsRequest, h]
  refine ⟨h1, h2, h3, ?_, ?_, ?_⟩
  · simp only [fetch_polls, h1]
  · simp only [cast_vote, h2]
  · simp only [get_poll_results, h3]

/-- C10: the empty-string bearer token behaves exactly like passing no token:
the built request carries no Authorization header and `cast_vote` is
indistinguishable from the token-less call against every transport, because
the header is added only when the token is truthy. -/
theorem empty_bearer_token_like_none (pid oid : Int) (b : String)
    (transport : Request → Except TransportExc Response) :
    (castVoteRequest pid oid b (some "")).headers = none ∧
    castVoteRequest pid oid b (some "") = castVoteRequest pid oid b none ∧
    cast_vote pid oid b (some "") transport = cast_vote pid oid b none transport :=
  ⟨rfl, rfl, rfl⟩

end PollyClient
